import Mathlib

/-
Verification of the AIS address-information API core, shallowly embedded
from `src/ais/api/serializers.py` and `src/ais/api/views.py`.

JSON documents are modelled as ordered association lists of string keys and
`JsonVal` values; Python `dict`/`OrderedDict` construction, string truthiness,
`int()` / `float()` parsing and `round()` (round-half-to-even on exact
rationals) are embedded explicitly.  Components of the repository that are not
under `src/` (`NotNoneDict`, `QueryPaginator`, `errors.json_error`, the
query-executor methods of the models) are modelled from the specification and
carry a doc comment saying so.
-/

set_option autoImplicit false

namespace AIS

/-- A JSON value.  Python floats are modelled as exact rationals. -/
inductive JsonVal where
  | null
  | str (s : String)
  | int (n : Int)
  | rat (q : ℚ)
  | bool (b : Bool)
  | arr (elems : List JsonVal)
  | obj (fields : List (String × JsonVal))

/-- An ordered JSON object body: keys paired with values, in emission order. -/
abbrev JObj := List (String × JsonVal)

/-- Value stored under key `k`, first match wins (Python dict lookup). -/
def getVal {α : Type} (l : List (String × α)) (k : String) : Option α :=
  match l with
  | [] => none
  | p :: rest => if p.1 = k then some p.2 else getVal rest k

/-- Python `d[k] = v` on a dict that already contains `k`: the value is
replaced in place, key order unchanged. -/
def setVal {α : Type} (l : List (String × α)) (k : String) (v : α) : List (String × α) :=
  l.map (fun p => if p.1 = k then (p.1, v) else p)

/-- One step of Python dict construction from a pair sequence: an existing
key keeps its position but takes the new value, a new key is appended. -/
def odictInsert (acc : JObj) (kv : String × JsonVal) : JObj :=
  if acc.any (fun p => p.1 = kv.1) then setVal acc kv.1 kv.2
  else acc ++ [kv]

/-- Python `OrderedDict(pairs)`: fold the pairs into an empty dict. -/
def odict (l : JObj) : JObj := l.foldl odictInsert []

/-- Python `d.update(extra)` applied to dict `d`. -/
def dictUpdate (d extra : JObj) : JObj := extra.foldl odictInsert d

/-- Top-level key sequence of an ordered object. -/
def keysOf {α : Type} (l : List (String × α)) : List String := l.map Prod.fst

/-- Python truthiness of an optional string: `None` and `""` are falsy. -/
def pyTruthy : Option String → Bool
  | none => false
  | some s => !(s = "")

/-- Python `a or b` on optional strings: yields `b` whenever `a` is falsy. -/
def pyOr (a b : Option String) : Option String :=
  if pyTruthy a then a else b

/-- A nullable string rendered as JSON. -/
def jsonOfOptStr : Option String → JsonVal
  | none => JsonVal.null
  | some s => JsonVal.str s

/-- Characters of `s` with surrounding whitespace removed, as Python's
numeric constructors do before parsing. -/
def stripEnds (s : String) : List Char :=
  ((s.toList.dropWhile Char.isWhitespace).reverse.dropWhile Char.isWhitespace).reverse

/-- Numeric value of a digit sequence (most significant first). -/
def digitsVal (l : List Char) : Nat :=
  l.foldl (fun acc c => acc * 10 + (c.toNat - 48)) 0

/-- Helper scanning a digit body after its first character `prev`: every
character is a digit, or an underscore directly preceded by a digit, and the
final character is a digit. -/
def intDigitsOkGo (prev : Char) : List Char → Bool
  | [] => prev.isDigit
  | c :: rest => (c.isDigit || (c = '_' && prev.isDigit)) && intDigitsOkGo c rest

/-- Python's rule for the digit body of an integer literal: nonempty, starts
and ends with a digit, underscores only singly and between digits. -/
def intDigitsOk : List Char → Bool
  | [] => false
  | c :: rest => c.isDigit && intDigitsOkGo c rest

/-- Python `int(s)` on a string: optional surrounding whitespace, optional
sign, then a digit body with optional underscore separators.  `none` models
the `ValueError` raised on any other input. -/
def pyIntOfStr (s : String) : Option Int :=
  match stripEnds s with
  | '+' :: rest =>
      if intDigitsOk rest then some (digitsVal (rest.filter Char.isDigit)) else none
  | '-' :: rest =>
      if intDigitsOk rest then some (-(digitsVal (rest.filter Char.isDigit) : Int)) else none
  | l => if intDigitsOk l then some (digitsVal (l.filter Char.isDigit)) else none

/-- Splits a character list at the first `e`/`E`, when present. -/
def splitAtExp : List Char → List Char × Option (List Char)
  | [] => ([], none)
  | c :: rest =>
      if c = 'e' ∨ c = 'E' then ([], some rest)
      else
        let p := splitAtExp rest
        (c :: p.1, p.2)

/-- Splits a character list at the first `.`, when present. -/
def splitAtDot : List Char → List Char × Option (List Char)
  | [] => ([], none)
  | c :: rest =>
      if c = '.' then ([], some rest)
      else
        let p := splitAtDot rest
        (c :: p.1, p.2)

/-- Value of an exponent suffix: optional sign and a nonempty digit run. -/
def parseExp : List Char → Option Int
  | '+' :: rest =>
      if rest ≠ [] ∧ rest.all Char.isDigit then some (digitsVal rest) else none
  | '-' :: rest =>
      if rest ≠ [] ∧ rest.all Char.isDigit then some (-(digitsVal rest : Int)) else none
  | l => if l ≠ [] ∧ l.all Char.isDigit then some (digitsVal l) else none

/-- Unsigned decimal mantissa: `digits`, `digits.`, `.digits` or
`digits.digits`, with at least one digit overall. -/
def parseMantissa (l : List Char) : Option ℚ :=
  let p := splitAtDot l
  match p.2 with
  | none =>
      if p.1 ≠ [] ∧ p.1.all Char.isDigit then some (digitsVal p.1) else none
  | some frac =>
      if p.1.all Char.isDigit ∧ frac.all Char.isDigit ∧ (p.1 ≠ [] ∨ frac ≠ []) then
        some ((digitsVal p.1 : ℚ) + (digitsVal frac : ℚ) / (10 : ℚ) ^ frac.length)
      else none

/-- Unsigned decimal literal with optional exponent. -/
def parseFloatMag (l : List Char) : Option ℚ :=
  let p := splitAtExp l
  match p.2 with
  | none => parseMantissa p.1
  | some e =>
      match parseMantissa p.1, parseExp e with
      | some m, some k => some (m * (10 : ℚ) ^ k)
      | _, _ => none

/-- Python `float(s)` on a string, restricted to finite decimal literals:
optional whitespace and sign, decimal mantissa, optional exponent.  (The
`inf`/`nan` spellings and underscore separators are not modelled; no input in
this development uses them.)  `none` models the `ValueError` on failure. -/
def pyFloatOfStr (s : String) : Option ℚ :=
  match stripEnds s with
  | '+' :: rest => parseFloatMag rest
  | '-' :: rest => (parseFloatMag rest).map Neg.neg
  | l => parseFloatMag l

/-- Python `float(v)` on an arbitrary value: numbers and booleans convert,
strings are parsed, and `None`/lists/objects raise (`none` here). -/
def pyFloatOfJson : JsonVal → Option ℚ
  | JsonVal.str s => pyFloatOfStr s
  | JsonVal.int n => some (n : ℚ)
  | JsonVal.rat q => some q
  | JsonVal.bool b => some (if b then 1 else 0)
  | _ => none

/-- Rounding to the nearest integer, ties to the even neighbour, as Python's
`round` does on exact values. -/
def roundHalfEven (x : ℚ) : ℤ :=
  let f := Int.floor x
  let r := x - (f : ℚ)
  if r < 1 / 2 then f
  else if 1 / 2 < r then f + 1
  else if f % 2 = 0 then f else f + 1

/-- Python `round(x, 3)` on an exact rational. -/
def pyRound3 (x : ℚ) : ℚ := ((roundHalfEven (x * 1000) : ℚ)) / 1000

/-- An `AddressSummary` record as the serializers and views read it: nullable
text columns are `Option String`, the numeric low address number is `Int`,
geocode coordinates are stored JSON values, and the associated service-area
row is a named column list (`address.service_areas.__table__.columns`). -/
structure Address where
  street_address : Option String
  address_low : Int
  address_low_suffix : Option String
  address_low_frac : Option String
  address_high : Option String
  street_predir : Option String
  street_name : Option String
  street_suffix : Option String
  street_postdir : Option String
  unit_type : Option String
  unit_num : Option String
  street_full : Option String
  zip_code : Option String
  zip_4 : Option String
  seg_id : Option String
  seg_side : Option String
  pwd_parcel_id : Option String
  dor_parcel_id : Option String
  opa_account_num : Option String
  opa_owners : Option String
  opa_address : Option String
  info_residents : Option String
  info_companies : Option String
  pwd_account_nums : Option String
  li_address_key : Option String
  voters : Option String
  geocode_type : Option String
  geocode_x : JsonVal
  geocode_y : JsonVal
  serviceAreas : List (String × JsonVal)

/-- Python `value or None` on a nullable string column: falsy values (absent
or empty) render as JSON null. -/
def orNull : Option String → JsonVal
  | none => JsonVal.null
  | some s => if s = "" then JsonVal.null else JsonVal.str s

/-- Python `value.split(sep) if value else None`: a truthy pipe-joined string
renders as the list of its segments, anything falsy as null. -/
def splitOrNull (v : Option String) : JsonVal :=
  match v with
  | none => JsonVal.null
  | some s =>
      if s = "" then JsonVal.null
      else JsonVal.arr ((s.splitOn "|").map JsonVal.str)

namespace AddressJsonSerializer

/-- Service-area attributes attached to the record, with the `id` and
`street_address` columns skipped, in column order. -/
def saData (a : Address) : JObj :=
  a.serviceAreas.filter (fun p => !(p.1 = "id" || p.1 = "street_address"))

/-- Fixed-order `properties` entries of the full public serializer before the
service-area merge (serializers.py lines 104-133). -/
def fixedProps (a : Address) : JObj :=
  [("street_address", jsonOfOptStr a.street_address),
   ("address_low", JsonVal.int a.address_low),
   ("address_low_suffix", jsonOfOptStr a.address_low_suffix),
   ("address_low_frac", jsonOfOptStr a.address_low_frac),
   ("address_high", jsonOfOptStr a.address_high),
   ("street_predir", jsonOfOptStr a.street_predir),
   ("street_name", jsonOfOptStr a.street_name),
   ("street_suffix", jsonOfOptStr a.street_suffix),
   ("street_postdir", jsonOfOptStr a.street_postdir),
   ("unit_type", jsonOfOptStr a.unit_type),
   ("unit_num", jsonOfOptStr a.unit_num),
   ("street_full", jsonOfOptStr a.street_full),
   ("zip_code", orNull a.zip_code),
   ("zip_4", orNull a.zip_4),
   ("pwd_parcel_id", orNull a.pwd_parcel_id),
   ("dor_parcel_id", orNull a.dor_parcel_id),
   ("li_address_key", jsonOfOptStr a.li_address_key),
   ("pwd_account_nums", splitOrNull a.pwd_account_nums),
   ("opa_account_num", orNull a.opa_account_num),
   ("opa_owners", splitOrNull a.opa_owners),
   ("opa_address", orNull a.opa_address),
   ("geom_type", if pyTruthy a.geocode_type then JsonVal.str "centroid" else JsonVal.null),
   ("geom_source", jsonOfOptStr a.geocode_type)]

/-- Geometry entry of the full serializer: a point from the stored x/y when
the geocode-method tag is truthy, otherwise null (serializers.py 134-137). -/
def geomVal (a : Address) : JsonVal :=
  if pyTruthy a.geocode_type then
    JsonVal.obj [("type", JsonVal.str "Point"),
                 ("coordinates", JsonVal.arr [a.geocode_x, a.geocode_y])]
  else JsonVal.null

/-- The recycling-diversion-rate fixup (serializers.py 78-91): when the
document has a `properties` object holding a `recycling_diversion_rate` that
`float()` accepts, that entry becomes `round(rate/100, 3)`; every failure
path of the Python `try` block (missing key, non-object properties,
unparseable value) leaves the document unchanged.  The embedding is a total
function, reflecting that the bare `except` clause lets no exception
escape. -/
def transform_exceptions (d : JObj) : JObj :=
  match getVal d "properties" with
  | some (JsonVal.obj props) =>
      match getVal props "recycling_diversion_rate" with
      | some v =>
          match pyFloatOfJson v with
          | some rate =>
              setVal d "properties"
                (JsonVal.obj (setVal props "recycling_diversion_rate"
                  (JsonVal.rat (pyRound3 (rate / 100)))))
          | none => d
      | none => d
  | _ => d

/-- Full-serializer record rendering (serializers.py 93-144): the fixed
feature triple, with service-area attributes merged into `properties` by
`dict.update` and the recycling fixup applied last. -/
def model_to_data (a : Address) : JObj :=
  transform_exceptions
    [("type", JsonVal.str "Feature"),
     ("properties", JsonVal.obj (dictUpdate (fixedProps a) (saData a))),
     ("geometry", geomVal a)]

end AddressJsonSerializer

namespace AddressSummaryJsonSerializer

/-- Summary-serializer record rendering (serializers.py 148-190): all columns
verbatim, and a geometry that is unconditionally a point. -/
def model_to_data (a : Address) : JObj :=
  [("type", JsonVal.str "Feature"),
   ("properties", JsonVal.obj
     [("street_address", jsonOfOptStr a.street_address),
      ("address_low", JsonVal.int a.address_low),
      ("address_low_suffix", jsonOfOptStr a.address_low_suffix),
      ("address_low_frac", jsonOfOptStr a.address_low_frac),
      ("address_high", jsonOfOptStr a.address_high),
      ("street_predir", jsonOfOptStr a.street_predir),
      ("street_name", jsonOfOptStr a.street_name),
      ("street_suffix", jsonOfOptStr a.street_suffix),
      ("street_postdir", jsonOfOptStr a.street_postdir),
      ("unit_type", jsonOfOptStr a.unit_type),
      ("unit_num", jsonOfOptStr a.unit_num),
      ("street_full", jsonOfOptStr a.street_full),
      ("zip_code", jsonOfOptStr a.zip_code),
      ("zip_4", jsonOfOptStr a.zip_4),
      ("seg_id", jsonOfOptStr a.seg_id),
      ("seg_side", jsonOfOptStr a.seg_side),
      ("pwd_parcel_id", jsonOfOptStr a.pwd_parcel_id),
      ("dor_parcel_id", jsonOfOptStr a.dor_parcel_id),
      ("opa_account_num", jsonOfOptStr a.opa_account_num),
      ("opa_owners", jsonOfOptStr a.opa_owners),
      ("opa_address", jsonOfOptStr a.opa_address),
      ("info_residents", jsonOfOptStr a.info_residents),
      ("info_companies", jsonOfOptStr a.info_companies),
      ("pwd_account_nums", jsonOfOptStr a.pwd_account_nums),
      ("li_address_key", jsonOfOptStr a.li_address_key),
      ("voters", jsonOfOptStr a.voters),
      ("geocode_type", jsonOfOptStr a.geocode_type),
      ("geocode_x", a.geocode_x),
      ("geocode_y", a.geocode_y)]),
   ("geometry", JsonVal.obj [("type", JsonVal.str "Point"),
                             ("coordinates", JsonVal.arr [a.geocode_x, a.geocode_y])])]

end AddressSummaryJsonSerializer

/-- The argument of `GeoJSONSerializer.render`: either one rendered record or
a list of rendered records. -/
inductive RenderData where
  | single (fields : JObj)
  | many (features : List JObj)

namespace GeoJSONSerializer

/-- Items contributed by an optional mapping guarded by Python truthiness
(`if self.metadata:`): absent or empty mappings contribute nothing. -/
def truthyItems : Option JObj → JObj
  | none => []
  | some l => if l.isEmpty then [] else l

/-- GeoJSON document assembly (serializers.py 29-48): metadata items first,
then — for a list — pagination items, the `FeatureCollection` tag and the
feature list, or — for a single record — the record's own items; the pair
sequence is collapsed by `OrderedDict` construction and emitted in order by
`json.dumps`. -/
def render (metadata pagination : Option JObj) : RenderData → JObj
  | RenderData.single fields => odict (truthyItems metadata ++ fields)
  | RenderData.many feats =>
      odict (truthyItems metadata ++ truthyItems pagination ++
        [("type", JsonVal.str "FeatureCollection"),
         ("features", JsonVal.arr (feats.map JsonVal.obj))])

/-- Rendering of one record by the full serializer (`BaseSerializer.serialize`). -/
def serialize (metadata pagination : Option JObj) (a : Address) : JObj :=
  render metadata pagination (RenderData.single (AddressJsonSerializer.model_to_data a))

/-- Rendering of a record list by the full serializer
(`BaseSerializer.serialize_many`). -/
def serialize_many (metadata pagination : Option JObj) (l : List Address) : JObj :=
  render metadata pagination (RenderData.many (l.map AddressJsonSerializer.model_to_data))

end GeoJSONSerializer

/-- The components of a parsed query as `views.py` reads them from the
external address parser: every field may be absent. -/
structure ParsedQuery where
  street_name : Option String
  street_predir : Option String
  street_postdir : Option String
  street_suffix : Option String
  address_low : Option String
  address_full : Option String
  address_high_num_full : Option String
  unit_type : Option String
  unit_num : Option String
  street_address : Option String

/-- Modelled from the spec: `NotNoneDict` (in `ais.util`, not under `src/`)
builds a dict from keyword arguments and drops every entry whose value is
`None`; this is one keyword's contribution. -/
def notNoneEntry (k : String) : Option String → List (String × String)
  | none => []
  | some s => [(k, s)]

/-- Loose filter map of `addresses_view` (views.py 69-76), in keyword
order; the address-low entry falls back to the full address-number token
through Python `or`. -/
def loose_filters (p : ParsedQuery) : List (String × String) :=
  notNoneEntry "street_name" p.street_name ++
  notNoneEntry "address_low" (pyOr p.address_low p.address_full) ++
  notNoneEntry "street_predir" p.street_predir ++
  notNoneEntry "street_postdir" p.street_postdir ++
  notNoneEntry "street_suffix" p.street_suffix ++
  notNoneEntry "unit_num" p.unit_num

/-- Strict filter map of `addresses_view` (views.py 77-79): a plain dict, so
the `address_high` key is present whatever the parsed value is. -/
def strict_filters (p : ParsedQuery) : List (String × Option String) :=
  [("address_high", p.address_high_num_full)]

/-- Loose filter map of `block_view` (views.py 138-143): street fields only,
the address number being expressed through the block range instead. -/
def block_filters (p : ParsedQuery) : List (String × String) :=
  notNoneEntry "street_name" p.street_name ++
  notNoneEntry "street_predir" p.street_predir ++
  notNoneEntry "street_postdir" p.street_postdir ++
  notNoneEntry "street_suffix" p.street_suffix

/-- Column of a record addressed by a filter key, the numeric low address
number compared through its decimal form. -/
def fieldValue (r : Address) (k : String) : Option String :=
  if k = "street_name" then r.street_name
  else if k = "address_low" then some (toString r.address_low)
  else if k = "street_predir" then r.street_predir
  else if k = "street_postdir" then r.street_postdir
  else if k = "street_suffix" then r.street_suffix
  else if k = "unit_num" then r.unit_num
  else if k = "address_high" then r.address_high
  else if k = "unit_type" then r.unit_type
  else none

/-- Modelled from the spec: equality filtering by the external query executor
for a loose map — every listed field must equal its expected value. -/
def matchesLoose (fs : List (String × String)) (r : Address) : Bool :=
  fs.all (fun kv => fieldValue r kv.1 == some kv.2)

/-- Modelled from the spec: strict matching — an absent expected value must
meet an explicit null or empty column. -/
def strictValMatch (expected actual : Option String) : Bool :=
  match expected with
  | none => actual == none || actual == some ""
  | some s => actual == some s

/-- Modelled from the spec: strict-map filtering by the external executor. -/
def matchesStrict (fs : List (String × Option String)) (r : Address) : Bool :=
  fs.all (fun kv => strictValMatch kv.2 (fieldValue r kv.1))

/-- Modelled from the spec: the auxiliary unit-type predicate
(`filter_by_unit_type`, not under `src/`) — constrains only when a unit type
was parsed. -/
def unitTypePred (ut : Option String) (r : Address) : Bool :=
  match ut with
  | none => true
  | some t => r.unit_type == some t

/-- Modelled from the spec: the OPA-presence exclusion (`exclude_non_opa`,
not under `src/`) — when the flag is set, drops records lacking a truthy
account number. -/
def opaPred (flag : Bool) (r : Address) : Bool :=
  !flag || pyTruthy r.opa_account_num

/-- Modelled from the spec: `include_child_units` (not under `src/`) is an
inclusion-only refinement that may add child-unit records for ranged
queries; no claim depends on what it adds, so it is modelled as keeping the
base collection. -/
def include_child_units (_high : Option String) (l : List Address) : List Address := l

/-- Insertion step for the stable address ordering. -/
def insertByAddr (x : Address) : List Address → List Address
  | [] => [x]
  | y :: rest =>
      if x.street_address.getD "" ≤ y.street_address.getD "" then x :: y :: rest
      else y :: insertByAddr x rest

/-- Modelled from the spec: `order_by_address` (not under `src/`) — a stable
total ordering of the collection, here by canonical street address. -/
def order_by_address (l : List Address) : List Address :=
  l.foldr insertByAddr []

/-- Modelled from the spec: `errors.json_error` (not under `src/`) builds the
structured error document carrying the status, a human-readable message and
the context mapping (callers read back `error['status']`). -/
def json_error (status : Nat) (message : String) (ctx : JObj) : JObj :=
  [("status", JsonVal.int status), ("message", JsonVal.str message)] ++ ctx

/-- A `QueryPaginator.ValidationError`: message plus structured context. -/
structure ValidationErr where
  message : String
  data : JObj

/-- Total page count for a collection of `count` items. -/
def totalPages (count pageSize : Nat) : Nat := (count + pageSize - 1) / pageSize

/-- Modelled from the spec: `QueryPaginator.validate_page_num` (not under
`src/`) — the raw string must parse as a positive integer and, when the
collection is nonempty, must not exceed the total page count; failures carry
the offending raw string as context. -/
def validate_page_num (count pageSize : Nat) (raw : String) : Except ValidationErr Nat :=
  match pyIntOfStr raw with
  | none => Except.error ⟨"Invalid page parameter.", [("page", JsonVal.str raw)]⟩
  | some k =>
      if k ≤ 0 then Except.error ⟨"Invalid page parameter.", [("page", JsonVal.str raw)]⟩
      else if 0 < count ∧ totalPages count pageSize < k.toNat then
        Except.error ⟨"Invalid page parameter.", [("page", JsonVal.str raw)]⟩
      else Except.ok k.toNat

/-- Modelled from the spec: `QueryPaginator.get_page` — the slice of items
for 1-indexed page `n` at the configured page size. -/
def get_page (pageSize n : Nat) (l : List Address) : List Address :=
  (l.drop ((n - 1) * pageSize)).take pageSize

/-- Modelled from the spec: `QueryPaginator.get_page_info` — the derived
page metadata mapping (total size, page count, current page, item range). -/
def get_page_info (count pageSize n : Nat) : JObj :=
  [("total_size", JsonVal.int count),
   ("page_count", JsonVal.int (totalPages count pageSize)),
   ("page", JsonVal.int n),
   ("page_start", JsonVal.int ((n - 1) * pageSize)),
   ("page_end", JsonVal.int (min (n * pageSize) count))]

/-- Outcome of a view call: a JSON body with an HTTP status, or an uncaught
exception escaping the handler. -/
inductive ViewResult where
  | response (body : JObj) (status : Nat)
  | crash

/-- Shared tail of the three list endpoints: page validation, page slicing
and serialization of the page (views.py 97-108 and its twins).  Runs only
after the zero-result check. -/
def paginateAndRender (pageSize : Nat) (metadata : JObj) (matched : List Address)
    (pageStr : String) : ViewResult :=
  match validate_page_num matched.length pageSize pageStr with
  | Except.error e => ViewResult.response (json_error 400 e.message e.data) 400
  | Except.ok n =>
      ViewResult.response
        (GeoJSONSerializer.serialize_many (some metadata)
          (some (get_page_info matched.length pageSize n)) (get_page pageSize n matched))
        200

/-- The filtered, ordered collection of `addresses_view` (views.py 81-87):
the executor chain applied to the record collection `db` standing for the
registry. -/
def addresses_matched (p : ParsedQuery) (opaOnly : Bool) (db : List Address) : List Address :=
  let s1 := db.filter (fun r => matchesLoose (loose_filters p) r && matchesStrict (strict_filters p) r)
  let s2 := s1.filter (unitTypePred p.unit_type)
  let s3 := s2.filter (opaPred opaOnly)
  order_by_address (include_child_units p.address_high_num_full s3)

/-- The `/addresses/<query>` endpoint (views.py 35-108): filter
construction, the executor chain, the empty-result check, then pagination
and rendering. -/
def addresses_view (pageSize : Nat) (query : String) (p : ParsedQuery) (opaOnly : Bool)
    (db : List Address) (pageStr : String) : ViewResult :=
  let matched := addresses_matched p opaOnly db
  let metadata : JObj := [("query", JsonVal.str query), ("normalized", jsonOfOptStr p.street_address)]
  if matched.length = 0 then
    ViewResult.response
      (json_error 404 "Could not find addresses matching query."
        [("query", JsonVal.str query), ("normalized", jsonOfOptStr p.street_address)])
      404
  else paginateAndRender pageSize metadata matched pageStr

/-- The address-number token of `block_view` (views.py 129-130): low with
Python-`or` fallback to the full token. -/
def blockToken (p : ParsedQuery) : Option String :=
  pyOr p.address_low p.address_full

/-- Bottom of the 100-wide block containing `n` (views.py 137), with
Python's floor division. -/
def blockNumOf (n : Int) : Int := n.fdiv 100 * 100

/-- The block-range predicate the query applies (views.py 146-147). -/
def blockRangePred (blockNum : Int) (r : Address) : Bool :=
  blockNum ≤ r.address_low && r.address_low < blockNum + 100

/-- The `/block/<query>` endpoint (views.py 114-170).  When the query has no
address-number token at all, `int(None)` raises an uncaught `TypeError`
(only `ValueError` is handled), modelled as a crash; a present token that
fails integer parsing yields the 400 error before any range or filter is
built. -/
def block_view (pageSize : Nat) (query : String) (p : ParsedQuery) (opaOnly : Bool)
    (db : List Address) (pageStr : String) : ViewResult :=
  match blockToken p with
  | none => ViewResult.crash
  | some tok =>
      match pyIntOfStr tok with
      | none =>
          ViewResult.response
            (json_error 400 "No valid block number provided."
              [("query", JsonVal.str query), ("normalized", jsonOfOptStr p.street_address)])
            400
      | some addressNum =>
          let blockNum := blockNumOf addressNum
          let s1 := db.filter (matchesLoose (block_filters p))
          let s2 := s1.filter (blockRangePred blockNum)
          let s3 := s2.filter (opaPred opaOnly)
          let matched := order_by_address s3
          let metadata : JObj :=
            [("query", JsonVal.str query), ("normalized", jsonOfOptStr p.street_address)]
          if matched.length = 0 then
            ViewResult.response
              (json_error 404 "Could not find any address on a block matching query."
                [("query", JsonVal.str query), ("normalized", jsonOfOptStr p.street_address)])
              404
          else paginateAndRender pageSize metadata matched pageStr

/-- Characters of `s` uppercased (Python `str.upper` on ASCII text). -/
def upperChars (s : String) : List Char :=
  s.toList.map Char.toUpper

/-- Accumulating scanner behind the whitespace split: `cur` holds the
characters of the currently open token, most recent first. -/
def wsTokens : List Char → List Char → List String
  | [], cur => if cur.isEmpty then [] else [String.mk cur.reverse]
  | c :: rest, cur =>
      if c.isWhitespace then
        if cur.isEmpty then wsTokens rest []
        else String.mk cur.reverse :: wsTokens rest []
      else wsTokens rest (c :: cur)

/-- Owner tokenizer (views.py 175): `query.upper().split()` — uppercase,
then split on whitespace runs, empties discarded. -/
def owner_tokens (query : String) : List String :=
  wsTokens (upperChars query) []

/-- Leading-match test for character lists. -/
def charsLeading : List Char → List Char → Bool
  | [], _ => true
  | _ :: _, [] => false
  | c :: cs, d :: ds => c = d && charsLeading cs ds

/-- Contiguous-occurrence test for character lists. -/
def charsWithin (needle : List Char) : List Char → Bool
  | [] => needle.isEmpty
  | c :: cs => charsLeading needle (c :: cs) || charsWithin needle cs

/-- Modelled from the spec: `filter_by_owner` (not under `src/`) keeps the
records whose owner field contains every token, and an empty token sequence
matches nothing. -/
def filter_by_owner (tokens : List String) (db : List Address) : List Address :=
  if tokens.isEmpty then []
  else db.filter (fun r =>
    tokens.all (fun t => charsWithin t.toList (upperChars (r.opa_owners.getD ""))))

/-- The `/owner/<query>` endpoint (views.py 173-202).  In the zero-result
branch the handler evaluates `json_response(response-error, status=404)`;
`response` is an unbound name, so a `NameError` escapes — modelled as a
crash — instead of the intended 404 error response. -/
def owner (pageSize : Nat) (query : String) (opaOnly : Bool) (db : List Address)
    (pageStr : String) : ViewResult :=
  let owner_parts := owner_tokens query
  let matched := order_by_address ((filter_by_owner owner_parts db).filter (opaPred opaOnly))
  if matched.length = 0 then ViewResult.crash
  else
    paginateAndRender pageSize
      [("query", JsonVal.str query),
       ("parsed", JsonVal.arr (owner_parts.map JsonVal.str))]
      matched pageStr

/-- A record with every nullable column absent, zero low address number and
no service areas; used to instantiate universally quantified theorems. -/
def emptyAddress : Address :=
  { street_address := none, address_low := 0, address_low_suffix := none,
    address_low_frac := none, address_high := none, street_predir := none,
    street_name := none, street_suffix := none, street_postdir := none,
    unit_type := none, unit_num := none, street_full := none,
    zip_code := none, zip_4 := none, seg_id := none, seg_side := none,
    pwd_parcel_id := none, dor_parcel_id := none, opa_account_num := none,
    opa_owners := none, opa_address := none, info_residents := none,
    info_companies := none, pwd_account_nums := none, li_address_key := none,
    voters := none, geocode_type := none, geocode_x := JsonVal.null,
    geocode_y := JsonVal.null, serviceAreas := [] }

theorem keysOf_append {α : Type} (a b : List (String × α)) :
    keysOf (a ++ b) = keysOf a ++ keysOf b :=
  List.map_append _ _ _

theorem keysOf_setVal {α : Type} (l : List (String × α)) (k : String) (v : α) :
    keysOf (setVal l k v) = keysOf l := by
  unfold keysOf setVal
  rw [List.map_map]
  congr 1
  funext p
  by_cases h : p.1 = k <;> simp [h]

theorem getVal_setVal_ne {α : Type} (l : List (String × α)) (k k' : String) (v : α)
    (h : k' ≠ k) : getVal (setVal l k v) k' = getVal l k' := by
  induction l with
  | nil => rfl
  | cons p rest ih =>
      by_cases hp : p.1 = k
      · have hq : ¬(p.1 = k') := fun e => h ((e ▸ hp : k' = k))
        calc getVal (setVal (p :: rest) k v) k'
            = getVal ((p.1, v) :: setVal rest k v) k' := by simp [setVal, hp]
          _ = getVal (setVal rest k v) k' := by simp [getVal, hq]
          _ = getVal rest k' := ih
          _ = getVal (p :: rest) k' := by simp [getVal, hq]
      · calc getVal (setVal (p :: rest) k v) k'
            = getVal (p :: setVal rest k v) k' := by simp [setVal, hp]
          _ = getVal (p :: rest) k' := by
              by_cases hq : p.1 = k' <;> simp [getVal, hq, ih]

theorem getVal_eq_none_iff {α : Type} (l : List (String × α)) (k : String) :
    getVal l k = none ↔ k ∉ keysOf l := by
  induction l with
  | nil => simp [getVal, keysOf]
  | cons p rest ih =>
      by_cases hp : p.1 = k
      · simp [getVal, keysOf, hp]
      · have hk : ¬(k = p.1) := fun e => hp e.symm
        simp [getVal, keysOf, hp, ih, hk]

theorem getVal_append_of_notin {α : Type} (l₁ l₂ : List (String × α)) (k : String)
    (h : k ∉ keysOf l₁) : getVal (l₁ ++ l₂) k = getVal l₂ k := by
  induction l₁ with
  | nil => rfl
  | cons p rest ih =>
      have h1 : ¬(p.1 = k) := fun e => h (List.mem_cons.2 (Or.inl e.symm))
      have h2 : k ∉ keysOf rest := fun e => h (List.mem_cons_of_mem _ e)
      simp [getVal, h1, ih h2]

theorem getVal_append_left {α : Type} (l₁ l₂ : List (String × α)) (k : String) (v : α)
    (h : getVal l₁ k = some v) : getVal (l₁ ++ l₂) k = some v := by
  induction l₁ with
  | nil => simp [getVal] at h
  | cons p rest ih =>
      by_cases hp : p.1 = k <;> simp [getVal, hp] at h ⊢
      · exact h
      · exact ih h

theorem getVal_odictInsert_ne (acc : JObj) (kv : String × JsonVal) (k : String)
    (h : kv.1 ≠ k) : getVal (odictInsert acc kv) k = getVal acc k := by
  unfold odictInsert
  by_cases ha : (acc.any (fun p => p.1 = kv.1)) = true
  · rw [if_pos ha]
    exact getVal_setVal_ne acc kv.1 k kv.2 (fun e => h e.symm)
  · rw [if_neg ha]
    cases hv : getVal acc k with
    | some v => rw [getVal_append_left acc [kv] k v hv]
    | none =>
        rw [getVal_append_of_notin acc [kv] k ((getVal_eq_none_iff acc k).1 hv)]
        simp [getVal, h]

theorem getVal_dictUpdate_notin (extra : JObj) (d : JObj) (k : String)
    (h : k ∉ keysOf extra) : getVal (dictUpdate d extra) k = getVal d k := by
  induction extra generalizing d with
  | nil => rfl
  | cons kv rest ih =>
      have h1 : kv.1 ≠ k := fun e => h (List.mem_cons.2 (Or.inl e.symm))
      have h2 : k ∉ keysOf rest := fun e => h (List.mem_cons_of_mem _ e)
      calc getVal (dictUpdate d (kv :: rest)) k
          = getVal (dictUpdate (odictInsert d kv) rest) k := rfl
        _ = getVal (odictInsert d kv) k := ih (odictInsert d kv) h2
        _ = getVal d k := getVal_odictInsert_ne d kv k h1

theorem foldl_odictInsert_eq_append :
    ∀ (l acc : JObj), (keysOf acc ++ keysOf l).Nodup → l.foldl odictInsert acc = acc ++ l := by
  intro l
  induction l with
  | nil => intro acc _; simp
  | cons kv t ih =>
      intro acc h
      have hd : (keysOf acc).Disjoint (keysOf (kv :: t)) := (List.nodup_append.1 h).2.2
      have hnot : kv.1 ∉ keysOf acc := fun hin => hd hin (by simp [keysOf])
      have hfalse : (acc.any (fun p => decide (p.1 = kv.1))) = false := by
        cases hcase : acc.any (fun p => decide (p.1 = kv.1)) with
        | false => rfl
        | true =>
            exfalso
            obtain ⟨p, hp, hdec⟩ := List.any_eq_true.1 hcase
            exact hnot ((of_decide_eq_true hdec) ▸ List.mem_map_of_mem Prod.fst hp)
      have hstep : odictInsert acc kv = acc ++ [kv] := by
        unfold odictInsert
        simp [hfalse]
      have hre : (keysOf (acc ++ [kv]) ++ keysOf t).Nodup := by
        rw [keysOf_append]
        simpa [keysOf, List.append_assoc] using h
      calc (kv :: t).foldl odictInsert acc
          = t.foldl odictInsert (odictInsert acc kv) := rfl
        _ = t.foldl odictInsert (acc ++ [kv]) := by rw [hstep]
        _ = (acc ++ [kv]) ++ t := ih (acc ++ [kv]) hre
        _ = acc ++ kv :: t := by simp

theorem odict_of_nodup (l : JObj) (h : (keysOf l).Nodup) : odict l = l := by
  have := foldl_odictInsert_eq_append l [] (by simpa [keysOf])
  simpa [odict] using this

theorem truthyItems_some (m : JObj) : GeoJSONSerializer.truthyItems (some m) = m := by
  show (if m.isEmpty then [] else m) = m
  by_cases h : m.isEmpty = true
  · rw [if_pos h, List.isEmpty_iff.1 h]
  · rw [if_neg h]

theorem getVal_setVal_self_of_found {α : Type} (l : List (String × α)) (k : String)
    (v w : α) (h : getVal l k = some w) : getVal (setVal l k v) k = some v := by
  induction l with
  | nil => simp [getVal] at h
  | cons p rest ih =>
      by_cases hp : p.1 = k
      · simp [setVal, getVal, hp]
      · simp [setVal, getVal, hp] at h ⊢
        exact ih h

theorem keysOf_transform (d : JObj) :
    keysOf (AddressJsonSerializer.transform_exceptions d) = keysOf d := by
  unfold AddressJsonSerializer.transform_exceptions
  repeat' split
  all_goals simp [keysOf_setVal]

theorem getVal_transform_ne (d : JObj) (k : String) (h : k ≠ "properties") :
    getVal (AddressJsonSerializer.transform_exceptions d) k = getVal d k := by
  unfold AddressJsonSerializer.transform_exceptions
  repeat' split
  all_goals simp [getVal_setVal_ne _ _ _ _ h]

/-- The `properties` object of a rendered document. -/
def propsOf (d : JObj) : JObj :=
  match getVal d "properties" with
  | some (JsonVal.obj p) => p
  | _ => []

theorem getVal_propsOf_transform (d : JObj) (k : String)
    (hk : k ≠ "recycling_diversion_rate") :
    getVal (propsOf (AddressJsonSerializer.transform_exceptions d)) k =
      getVal (propsOf d) k := by
  unfold AddressJsonSerializer.transform_exceptions
  repeat' split
  all_goals try rfl
  rename_i x1 props hp x2 v2 hr x3 rate hf
  have h1 : getVal (setVal d "properties"
      (JsonVal.obj (setVal props "recycling_diversion_rate"
        (JsonVal.rat (pyRound3 (rate / 100)))))) "properties" =
      some (JsonVal.obj (setVal props "recycling_diversion_rate"
        (JsonVal.rat (pyRound3 (rate / 100))))) :=
    getVal_setVal_self_of_found d "properties" _ _ hp
  unfold propsOf
  rw [h1, hp]
  exact getVal_setVal_ne props _ k _ hk

theorem propsOf_model_to_data (a : Address) (k : String)
    (hk : k ≠ "recycling_diversion_rate") :
    getVal (propsOf (AddressJsonSerializer.model_to_data a)) k =
      getVal (dictUpdate (AddressJsonSerializer.fixedProps a)
        (AddressJsonSerializer.saData a)) k :=
  getVal_propsOf_transform
    [("type", JsonVal.str "Feature"),
     ("properties", JsonVal.obj (dictUpdate (AddressJsonSerializer.fixedProps a)
       (AddressJsonSerializer.saData a))),
     ("geometry", AddressJsonSerializer.geomVal a)] k hk

theorem notNoneEntry_length (k : String) (v : Option String) :
    (notNoneEntry k v).length = if v.isSome then 1 else 0 := by
  cases v <;> rfl

theorem mem_keys_notNoneEntry (k k' : String) (v : Option String) :
    k ∈ keysOf (notNoneEntry k' v) ↔ k = k' ∧ v.isSome := by
  cases v <;> simp [notNoneEntry, keysOf]

theorem pyOr_some_some (a b : String) : (pyOr (some a) (some b)).isSome = true := by
  unfold pyOr
  by_cases h : pyTruthy (some a) = true <;> simp [h]

theorem pyOr_none_none : pyOr none none = none := rfl

/-- A parsed query with every component present. -/
def samplePQ : ParsedQuery :=
  { street_name := some "MARKET", street_predir := some "W",
    street_postdir := some "S", street_suffix := some "ST",
    address_low := some "400", address_full := some "400-98",
    address_high_num_full := some "498", unit_type := some "APT",
    unit_num := some "2", street_address := some "400-98 W MARKET ST S APT 2" }

/-- A parsed query whose address-number token is present but not numeric. -/
def badBlockPQ : ParsedQuery :=
  { street_name := some "MARKET", street_predir := none,
    street_postdir := none, street_suffix := some "ST",
    address_low := some "ABC", address_full := none,
    address_high_num_full := none, unit_type := none,
    unit_num := none, street_address := some "ABC MARKET ST" }

/-- C2: for every non-negative integer address number `n`, the block bottom
computed by `block_view` is `floor(n / 100) * 100`, the top is 100 more,
`low <= n < high` and `high - low = 100` hold, and the block query
constrains a record exactly to `low <= address_low < high`. -/
theorem c2_block_range (n : Int) (h : 0 ≤ n) :
    blockNumOf n ≤ n ∧ n < blockNumOf n + 100 ∧
    blockNumOf n + 100 - blockNumOf n = 100 ∧
    (∀ r : Address, blockRangePred (blockNumOf n) r = true ↔
      (blockNumOf n ≤ r.address_low ∧ r.address_low < blockNumOf n + 100)) := by
  have hb : blockNumOf n = n / 100 * 100 := by
    unfold blockNumOf
    rw [Int.fdiv_eq_ediv n (by norm_num : (0 : ℤ) ≤ 100)]
  refine ⟨?_, ?_, by omega, ?_⟩
  · rw [hb]; omega
  · rw [hb]; omega
  · intro r
    simp [blockRangePred, Bool.and_eq_true, decide_eq_true_eq]

theorem c2_block_range_witness :
    blockNumOf 437 = 400 ∧ blockNumOf 437 + 100 = 500 ∧
    (blockNumOf 437 ≤ 437 ∧ (437 : Int) < blockNumOf 437 + 100) := by
  have h := c2_block_range 437 (by decide)
  exact ⟨by decide, by decide, h.1, h.2.1⟩

/-- C4: for every parsed query the strict filter map contains `address_high`
bound verbatim to the parsed high-address value — also when that value is
absent — and contains nothing else. -/
theorem c4_strict_address_high (p : ParsedQuery) :
    getVal (strict_filters p) "address_high" = some p.address_high_num_full ∧
    keysOf (strict_filters p) = ["address_high"] :=
  ⟨rfl, rfl⟩

/-- C8: the code bug at views.py 189 — on an owner query matching no record
the handler evaluates `json_response(response-error, status=404)`, where
`response` is unbound, so a `NameError` escapes instead of the intended 404
error document; shown here on a concrete zero-result owner lookup. -/
theorem c8_owner_zero_result_crash :
    owner 100 "nobody home" false [] "1" = ViewResult.crash := rfl

/-- C3: a loose-tier field whose contributing value is absent leaves no key
in the loose map, and on a fully populated query clearing one loose-tier
field (for the address-number tier: both the low and the full token) takes
the map from six keys to five. -/
theorem c3_loose_filter_absence (p : ParsedQuery) :
    (p.street_name = none → "street_name" ∉ keysOf (loose_filters p)) ∧
    (pyOr p.address_low p.address_full = none →
      "address_low" ∉ keysOf (loose_filters p)) ∧
    (p.street_predir = none → "street_predir" ∉ keysOf (loose_filters p)) ∧
    (p.street_postdir = none → "street_postdir" ∉ keysOf (loose_filters p)) ∧
    (p.street_suffix = none → "street_suffix" ∉ keysOf (loose_filters p)) ∧
    (p.unit_num = none → "unit_num" ∉ keysOf (loose_filters p)) ∧
    (p.street_name.isSome → p.address_low.isSome → p.address_full.isSome →
     p.street_predir.isSome → p.street_postdir.isSome → p.street_suffix.isSome →
     p.unit_num.isSome →
      (loose_filters p).length = 6 ∧
      (loose_filters { p with street_name := none }).length = 5 ∧
      (loose_filters { p with address_low := none, address_full := none }).length = 5 ∧
      (loose_filters { p with street_predir := none }).length = 5 ∧
      (loose_filters { p with street_postdir := none }).length = 5 ∧
      (loose_filters { p with street_suffix := none }).length = 5 ∧
      (loose_filters { p with unit_num := none }).length = 5) := by
  refine ⟨?_, ?_, ?_, ?_, ?_, ?_, ?_⟩
  · intro h
    simp [loose_filters, keysOf_append, List.mem_append, mem_keys_notNoneEntry, h]
  · intro h
    simp [loose_filters, keysOf_append, List.mem_append, mem_keys_notNoneEntry, h]
  · intro h
    simp [loose_filters, keysOf_append, List.mem_append, mem_keys_notNoneEntry, h]
  · intro h
    simp [loose_filters, keysOf_append, List.mem_append, mem_keys_notNoneEntry, h]
  · intro h
    simp [loose_filters, keysOf_append, List.mem_append, mem_keys_notNoneEntry, h]
  · intro h
    simp [loose_filters, keysOf_append, List.mem_append, mem_keys_notNoneEntry, h]
  · intro h1 h2 h3 h4 h5 h6 h7
    obtain ⟨a1, e1⟩ := Option.isSome_iff_exists.1 h1
    obtain ⟨a2, e2⟩ := Option.isSome_iff_exists.1 h2
    obtain ⟨a3, e3⟩ := Option.isSome_iff_exists.1 h3
    obtain ⟨a4, e4⟩ := Option.isSome_iff_exists.1 h4
    obtain ⟨a5, e5⟩ := Option.isSome_iff_exists.1 h5
    obtain ⟨a6, e6⟩ := Option.isSome_iff_exists.1 h6
    obtain ⟨a7, e7⟩ := Option.isSome_iff_exists.1 h7
    refine ⟨?_, ?_, ?_, ?_, ?_, ?_, ?_⟩ <;>
      simp [loose_filters, List.length_append, notNoneEntry_length,
        e1, e2, e3, e4, e5, e6, e7, pyOr_some_some, pyOr_none_none]

theorem c3_loose_filter_absence_witness :
    (loose_filters samplePQ).length = 6 ∧
    (loose_filters { samplePQ with street_name := none }).length = 5 ∧
    "street_name" ∉ keysOf (loose_filters { samplePQ with street_name := none }) := by
  have hfull := (c3_loose_filter_absence samplePQ).2.2.2.2.2.2
    rfl rfl rfl rfl rfl rfl rfl
  exact ⟨hfull.1, hfull.2.1,
    (c3_loose_filter_absence { samplePQ with street_name := none }).1 rfl⟩

/-- C7: a block lookup whose address-number token is present but fails
integer parsing answers with the 400 error document carrying the query and
its normalized form — for every record collection, so no block range or
filter is ever consulted. -/
theorem c7_block_invalid_number (pageSize : Nat) (query : String) (p : ParsedQuery)
    (opaOnly : Bool) (db : List Address) (pageStr : String) (tok : String)
    (h1 : blockToken p = some tok) (h2 : pyIntOfStr tok = none) :
    block_view pageSize query p opaOnly db pageStr =
      ViewResult.response
        (json_error 400 "No valid block number provided."
          [("query", JsonVal.str query), ("normalized", jsonOfOptStr p.street_address)])
        400 := by
  unfold block_view
  rw [h1]
  simp only [h2]

theorem c7_block_invalid_number_witness :
    block_view 100 "abc market st" badBlockPQ false [] "1" =
      ViewResult.response
        (json_error 400 "No valid block number provided."
          [("query", JsonVal.str "abc market st"),
           ("normalized", JsonVal.str "ABC MARKET ST")])
        400 :=
  c7_block_invalid_number 100 "abc market st" badBlockPQ false [] "1" "ABC"
    rfl (by decide)

/-- C9: an address query whose filtered collection is empty yields the 404
error with the query and its normalized form for every page parameter —
valid or not — and only a non-empty collection reaches page validation,
slicing and serialization. -/
theorem c9_empty_before_pagination (pageSize : Nat) (query : String) (p : ParsedQuery)
    (opaOnly : Bool) (db : List Address) (pageStr : String) :
    (addresses_matched p opaOnly db = [] →
      addresses_view pageSize query p opaOnly db pageStr =
        ViewResult.response
          (json_error 404 "Could not find addresses matching query."
            [("query", JsonVal.str query), ("normalized", jsonOfOptStr p.street_address)])
          404) ∧
    (addresses_matched p opaOnly db ≠ [] →
      addresses_view pageSize query p opaOnly db pageStr =
        paginateAndRender pageSize
          [("query", JsonVal.str query), ("normalized", jsonOfOptStr p.street_address)]
          (addresses_matched p opaOnly db) pageStr) := by
  constructor
  · intro h
    simp [addresses_view, h]
  · intro h
    have hl : ¬((addresses_matched p opaOnly db).length = 0) := by
      intro e
      exact h (List.length_eq_zero.1 e)
    simp [addresses_view, hl]

theorem c9_empty_before_pagination_witness :
    addresses_view 100 "sample" samplePQ false [] "not-a-page" =
      ViewResult.response
        (json_error 404 "Could not find addresses matching query."
          [("query", JsonVal.str "sample"),
           ("normalized", jsonOfOptStr samplePQ.street_address)])
        404 :=
  (c9_empty_before_pagination 100 "sample" samplePQ false [] "not-a-page").1 rfl

/-- The recycling-rate entry a document exposes to the transform: the value
under `recycling_diversion_rate` inside a `properties` object, when both
levels exist. -/
def rateEntry (d : JObj) : Option JsonVal :=
  match getVal d "properties" with
  | some (JsonVal.obj props) => getVal props "recycling_diversion_rate"
  | _ => none

/-- C5: when the rate entry is absent, or present but rejected by `float()`,
the transform returns the document unchanged; when it parses as a number the
entry becomes `round(rate/100, 3)` in place.  The transform is a total
function, so no input document makes it raise. -/
theorem c5_recycling_transform (d : JObj) :
    (rateEntry d = none → AddressJsonSerializer.transform_exceptions d = d) ∧
    (∀ v, rateEntry d = some v → pyFloatOfJson v = none →
      AddressJsonSerializer.transform_exceptions d = d) ∧
    (∀ props v rate, getVal d "properties" = some (JsonVal.obj props) →
      getVal props "recycling_diversion_rate" = some v →
      pyFloatOfJson v = some rate →
      AddressJsonSerializer.transform_exceptions d =
        setVal d "properties" (JsonVal.obj (setVal props "recycling_diversion_rate"
          (JsonVal.rat (pyRound3 (rate / 100)))))) := by
  refine ⟨?_, ?_, ?_⟩
  · intro h
    unfold AddressJsonSerializer.transform_exceptions
    cases hp : getVal d "properties" with
    | none => rfl
    | some v =>
        cases v with
        | obj props =>
            have h2 : getVal props "recycling_diversion_rate" = none := by
              unfold rateEntry at h
              rw [hp] at h
              simpa using h
            simp only [h2]
        | null => rfl
        | str s => rfl
        | int n => rfl
        | rat q => rfl
        | bool b => rfl
        | arr elems => rfl
  · intro v hv hf
    unfold AddressJsonSerializer.transform_exceptions
    cases hp : getVal d "properties" with
    | none => rfl
    | some w =>
        cases w with
        | obj props =>
            have h2 : getVal props "recycling_diversion_rate" = some v := by
              unfold rateEntry at hv
              rw [hp] at hv
              simpa using hv
            simp only [h2, hf]
        | null => rfl
        | str s => rfl
        | int n => rfl
        | rat q => rfl
        | bool b => rfl
        | arr elems => rfl
  · intro props v rate hp hr hf
    unfold AddressJsonSerializer.transform_exceptions
    rw [hp]
    simp only [hr, hf]

/-- A rendered document whose properties carry a parseable recycling rate. -/
def rateDoc : JObj :=
  [("type", JsonVal.str "Feature"),
   ("properties", JsonVal.obj [("recycling_diversion_rate", JsonVal.str "50")]),
   ("geometry", JsonVal.null)]

theorem c5_recycling_transform_witness :
    AddressJsonSerializer.transform_exceptions rateDoc =
      setVal rateDoc "properties"
        (JsonVal.obj (setVal [("recycling_diversion_rate", JsonVal.str "50")]
          "recycling_diversion_rate"
          (JsonVal.rat (pyRound3 (((50 : ℕ) : ℚ) / 100))))) ∧
    AddressJsonSerializer.transform_exceptions [("type", JsonVal.null)] =
      [("type", JsonVal.null)] :=
  ⟨(c5_recycling_transform rateDoc).2.2
      [("recycling_diversion_rate", JsonVal.str "50")] (JsonVal.str "50")
      ((50 : ℕ) : ℚ) rfl rfl rfl,
   (c5_recycling_transform [("type", JsonVal.null)]).1 rfl⟩

/-- C6 counterexample: the summary serializer renders a Point geometry even
for a record with no geocode-method tag, so the cited claim fails on
`AddressSummaryJsonSerializer.model_to_data` (serializers.py 185-188). -/
theorem c6_geometry_counterexample :
    emptyAddress.geocode_type = none ∧
    getVal (AddressSummaryJsonSerializer.model_to_data emptyAddress) "geometry" ≠
      some JsonVal.null := by
  refine ⟨rfl, ?_⟩
  intro h
  have h2 : (JsonVal.obj [("type", JsonVal.str "Point"),
      ("coordinates", JsonVal.arr [JsonVal.null, JsonVal.null])]) = JsonVal.null :=
    Option.some.inj h
  cases h2

/-- C6 amended: the full public serializer renders geometry null exactly
when the geocode-method tag is falsy and a `[x, y]` Point otherwise, while
the summary serializer always renders a Point from the stored
coordinates. -/
theorem c6_geometry_amended (a : Address) :
    (pyTruthy a.geocode_type = false →
      getVal (AddressJsonSerializer.model_to_data a) "geometry" = some JsonVal.null) ∧
    (pyTruthy a.geocode_type = true →
      getVal (AddressJsonSerializer.model_to_data a) "geometry" =
        some (JsonVal.obj [("type", JsonVal.str "Point"),
          ("coordinates", JsonVal.arr [a.geocode_x, a.geocode_y])])) ∧
    getVal (AddressSummaryJsonSerializer.model_to_data a) "geometry" =
      some (JsonVal.obj [("type", JsonVal.str "Point"),
        ("coordinates", JsonVal.arr [a.geocode_x, a.geocode_y])]) := by
  have hbase : getVal (AddressJsonSerializer.model_to_data a) "geometry" =
      some (AddressJsonSerializer.geomVal a) := by
    have h0 := getVal_transform_ne
      [("type", JsonVal.str "Feature"),
       ("properties", JsonVal.obj (dictUpdate (AddressJsonSerializer.fixedProps a)
         (AddressJsonSerializer.saData a))),
       ("geometry", AddressJsonSerializer.geomVal a)] "geometry" (by decide)
    exact h0.trans rfl
  refine ⟨?_, ?_, rfl⟩
  · intro h
    rw [hbase]
    unfold AddressJsonSerializer.geomVal
    rw [h]
    simp
  · intro h
    rw [hbase]
    unfold AddressJsonSerializer.geomVal
    rw [h]
    simp

theorem c6_geometry_amended_witness :
    getVal (AddressJsonSerializer.model_to_data emptyAddress) "geometry" =
      some JsonVal.null :=
  (c6_geometry_amended emptyAddress).1 rfl

/-- C1 counterexample: with the metadata mapping `{"type": null}` the
rendered single-record document does not list the metadata keys followed by
the record keys — `OrderedDict` construction collapses the colliding `type`
key — so the claim fails as stated for that metadata mapping. -/
theorem c1_render_counterexample :
    keysOf (GeoJSONSerializer.serialize (some [("type", JsonVal.null)]) none emptyAddress) =
      ["type", "properties", "geometry"] ∧
    keysOf [(("type" : String), JsonVal.null)] ++ ["type", "properties", "geometry"] =
      ["type", "type", "properties", "geometry"] ∧
    (["type", "properties", "geometry"] : List String) ≠
      ["type", "type", "properties", "geometry"] := by
  refine ⟨by decide, rfl, by decide⟩

/-- C1 amended: provided the metadata keys avoid the fixed document keys
(and, for collections, the pagination keys) so that no `OrderedDict` key
collapse occurs, a single record serializes to exactly the metadata keys
followed by `type`, `properties`, `geometry`, and a record list serializes
to metadata keys, pagination keys, `type = "FeatureCollection"` and a
`features` array whose length equals the number of input records. -/
theorem c1_render_amended (m pg : JObj) (a : Address) (recs : List Address)
    (h1 : (keysOf m ++ ["type", "properties", "geometry"]).Nodup)
    (h2 : (keysOf m ++ keysOf pg ++ ["type", "features"]).Nodup) :
    keysOf (GeoJSONSerializer.serialize (some m) (some pg) a) =
      keysOf m ++ ["type", "properties", "geometry"] ∧
    keysOf (GeoJSONSerializer.serialize_many (some m) (some pg) recs) =
      keysOf m ++ keysOf pg ++ ["type", "features"] ∧
    (∃ fts : List JsonVal,
      getVal (GeoJSONSerializer.serialize_many (some m) (some pg) recs) "features" =
        some (JsonVal.arr fts) ∧ fts.length = recs.length) := by
  have hkm : keysOf (AddressJsonSerializer.model_to_data a) =
      ["type", "properties", "geometry"] :=
    (keysOf_transform _).trans rfl
  have hsingle : GeoJSONSerializer.serialize (some m) (some pg) a =
      odict (GeoJSONSerializer.truthyItems (some m) ++
        AddressJsonSerializer.model_to_data a) := rfl
  have hmany : GeoJSONSerializer.serialize_many (some m) (some pg) recs =
      odict (GeoJSONSerializer.truthyItems (some m) ++
        GeoJSONSerializer.truthyItems (some pg) ++
        [("type", JsonVal.str "FeatureCollection"),
         ("features", JsonVal.arr ((recs.map AddressJsonSerializer.model_to_data).map
           JsonVal.obj))]) := rfl
  have htail : keysOf
      ([("type", JsonVal.str "FeatureCollection"),
        ("features", JsonVal.arr ((recs.map AddressJsonSerializer.model_to_data).map
          JsonVal.obj))] : JObj) = ["type", "features"] := rfl
  have hn2 : (keysOf (m ++ pg ++
      [("type", JsonVal.str "FeatureCollection"),
       ("features", JsonVal.arr ((recs.map AddressJsonSerializer.model_to_data).map
         JsonVal.obj))])).Nodup := by
    rw [keysOf_append, keysOf_append, htail]
    exact h2
  have hdj := (List.nodup_append.1 h2).2.2
  have hfnm : "features" ∉ keysOf m := fun hin =>
    hdj (List.mem_append_left _ hin) (by simp)
  have hfnp : "features" ∉ keysOf pg := fun hin =>
    hdj (List.mem_append_right _ hin) (by simp)
  refine ⟨?_, ?_, ?_⟩
  · rw [hsingle, truthyItems_some]
    have hnodup : (keysOf (m ++ AddressJsonSerializer.model_to_data a)).Nodup := by
      rw [keysOf_append, hkm]
      exact h1
    rw [odict_of_nodup _ hnodup, keysOf_append, hkm]
  · rw [hmany, truthyItems_some, truthyItems_some,
      odict_of_nodup _ hn2, keysOf_append, keysOf_append, htail]
  · refine ⟨(recs.map AddressJsonSerializer.model_to_data).map JsonVal.obj, ?_, by simp⟩
    rw [hmany, truthyItems_some, truthyItems_some, odict_of_nodup _ hn2,
      List.append_assoc, getVal_append_of_notin _ _ _ hfnm,
      getVal_append_of_notin _ _ _ hfnp]
    rfl

theorem c1_render_amended_witness :
    keysOf (GeoJSONSerializer.serialize
        (some [("query", JsonVal.str "q"), ("normalized", JsonVal.null)])
        (some [("page", JsonVal.int 1)]) emptyAddress) =
      ["query", "normalized", "type", "properties", "geometry"] ∧
    keysOf (GeoJSONSerializer.serialize_many
        (some [("query", JsonVal.str "q"), ("normalized", JsonVal.null)])
        (some [("page", JsonVal.int 1)]) [emptyAddress, emptyAddress]) =
      ["query", "normalized", "page", "type", "features"] ∧
    (∃ fts : List JsonVal,
      getVal (GeoJSONSerializer.serialize_many
          (some [("query", JsonVal.str "q"), ("normalized", JsonVal.null)])
          (some [("page", JsonVal.int 1)]) [emptyAddress, emptyAddress]) "features" =
        some (JsonVal.arr fts) ∧ fts.length = 2) :=
  c1_render_amended
    [("query", JsonVal.str "q"), ("normalized", JsonVal.null)]
    [("page", JsonVal.int 1)] emptyAddress [emptyAddress, emptyAddress]
    (by decide) (by decide)

/-- Property names addressed by the identifier-rendering claim. -/
def c10Keys : List String :=
  ["street_address", "address_low", "address_low_suffix", "address_low_frac",
   "address_high", "street_predir", "street_name", "street_suffix",
   "street_postdir", "unit_type", "unit_num", "street_full",
   "zip_code", "zip_4", "pwd_parcel_id", "dor_parcel_id", "li_address_key",
   "pwd_account_nums", "opa_account_num", "opa_owners", "opa_address"]

/-- C10: in the full public serializer the zip and identifier properties are
null-coalesced (falsy stored values render as null), the pipe-joined
account/owner strings render split on `|` when truthy and null otherwise,
and the street/address component properties pass through verbatim; the
service-area columns are assumed not to shadow these property names. -/
theorem c10_identifier_rendering (a : Address)
    (hsa : ∀ kv ∈ a.serviceAreas, kv.1 ∉ c10Keys) :
    getVal (propsOf (AddressJsonSerializer.model_to_data a)) "zip_code" =
      some (orNull a.zip_code) ∧
    getVal (propsOf (AddressJsonSerializer.model_to_data a)) "zip_4" =
      some (orNull a.zip_4) ∧
    getVal (propsOf (AddressJsonSerializer.model_to_data a)) "pwd_parcel_id" =
      some (orNull a.pwd_parcel_id) ∧
    getVal (propsOf (AddressJsonSerializer.model_to_data a)) "dor_parcel_id" =
      some (orNull a.dor_parcel_id) ∧
    getVal (propsOf (AddressJsonSerializer.model_to_data a)) "opa_account_num" =
      some (orNull a.opa_account_num) ∧
    getVal (propsOf (AddressJsonSerializer.model_to_data a)) "opa_address" =
      some (orNull a.opa_address) ∧
    getVal (propsOf (AddressJsonSerializer.model_to_data a)) "pwd_account_nums" =
      some (splitOrNull a.pwd_account_nums) ∧
    getVal (propsOf (AddressJsonSerializer.model_to_data a)) "opa_owners" =
      some (splitOrNull a.opa_owners) ∧
    getVal (propsOf (AddressJsonSerializer.model_to_data a)) "street_address" =
      some (jsonOfOptStr a.street_address) ∧
    getVal (propsOf (AddressJsonSerializer.model_to_data a)) "address_low" =
      some (JsonVal.int a.address_low) ∧
    getVal (propsOf (AddressJsonSerializer.model_to_data a)) "address_low_suffix" =
      some (jsonOfOptStr a.address_low_suffix) ∧
    getVal (propsOf (AddressJsonSerializer.model_to_data a)) "address_low_frac" =
      some (jsonOfOptStr a.address_low_frac) ∧
    getVal (propsOf (AddressJsonSerializer.model_to_data a)) "address_high" =
      some (jsonOfOptStr a.address_high) ∧
    getVal (propsOf (AddressJsonSerializer.model_to_data a)) "street_predir" =
      some (jsonOfOptStr a.street_predir) ∧
    getVal (propsOf (AddressJsonSerializer.model_to_data a)) "street_name" =
      some (jsonOfOptStr a.street_name) ∧
    getVal (propsOf (AddressJsonSerializer.model_to_data a)) "street_suffix" =
      some (jsonOfOptStr a.street_suffix) ∧
    getVal (propsOf (AddressJsonSerializer.model_to_data a)) "street_postdir" =
      some (jsonOfOptStr a.street_postdir) ∧
    getVal (propsOf (AddressJsonSerializer.model_to_data a)) "unit_type" =
      some (jsonOfOptStr a.unit_type) ∧
    getVal (propsOf (AddressJsonSerializer.model_to_data a)) "unit_num" =
      some (jsonOfOptStr a.unit_num) ∧
    getVal (propsOf (AddressJsonSerializer.model_to_data a)) "street_full" =
      some (jsonOfOptStr a.street_full) ∧
    getVal (propsOf (AddressJsonSerializer.model_to_data a)) "li_address_key" =
      some (jsonOfOptStr a.li_address_key) ∧
    orNull none = JsonVal.null ∧
    (∀ s : String, orNull (some s) =
      if s = "" then JsonVal.null else JsonVal.str s) ∧
    splitOrNull none = JsonVal.null ∧
    (∀ s : String, splitOrNull (some s) =
      if s = "" then JsonVal.null
      else JsonVal.arr ((s.splitOn "|").map JsonVal.str)) := by
  have key : ∀ k : String, k ∈ c10Keys → k ≠ "recycling_diversion_rate" →
      getVal (propsOf (AddressJsonSerializer.model_to_data a)) k =
        getVal (AddressJsonSerializer.fixedProps a) k := by
    intro k hk hr
    rw [propsOf_model_to_data a k hr]
    apply getVal_dictUpdate_notin
    intro hmem
    obtain ⟨kv, hkv, he⟩ := List.mem_map.1 hmem
    have hin : kv ∈ a.serviceAreas := (List.mem_filter.1 hkv).1
    exact hsa kv hin (he.symm ▸ hk)
  refine ⟨(key _ (by decide) (by decide)).trans rfl,
    (key _ (by decide) (by decide)).trans rfl,
    (key _ (by decide) (by decide)).trans rfl,
    (key _ (by decide) (by decide)).trans rfl,
    (key _ (by decide) (by decide)).trans rfl,
    (key _ (by decide) (by decide)).trans rfl,
    (key _ (by decide) (by decide)).trans rfl,
    (key _ (by decide) (by decide)).trans rfl,
    (key _ (by decide) (by decide)).trans rfl,
    (key _ (by decide) (by decide)).trans rfl,
    (key _ (by decide) (by decide)).trans rfl,
    (key _ (by decide) (by decide)).trans rfl,
    (key _ (by decide) (by decide)).trans rfl,
    (key _ (by decide) (by decide)).trans rfl,
    (key _ (by decide) (by decide)).trans rfl,
    (key _ (by decide) (by decide)).trans rfl,
    (key _ (by decide) (by decide)).trans rfl,
    (key _ (by decide) (by decide)).trans rfl,
    (key _ (by decide) (by decide)).trans rfl,
    (key _ (by decide) (by decide)).trans rfl,
    (key _ (by decide) (by decide)).trans rfl,
    rfl, fun s => rfl, rfl, fun s => rfl⟩

theorem c10_identifier_rendering_witness :
    getVal (propsOf (AddressJsonSerializer.model_to_data emptyAddress)) "zip_code" =
      some (orNull emptyAddress.zip_code) ∧
    getVal (propsOf (AddressJsonSerializer.model_to_data emptyAddress)) "opa_owners" =
      some (splitOrNull emptyAddress.opa_owners) := by
  have h := c10_identifier_rendering emptyAddress
    (fun kv hkv => absurd hkv (List.not_mem_nil kv))
  exact ⟨h.1, h.2.2.2.2.2.2.2.1⟩

end AIS
